import Mathlib

/-!
Verification development for `src/labmateai/collaborative_recommender.py`.

The Python class `CollaborativeRecommender` is shallowly embedded below.

Modelling conventions:
* Ratings are exact rationals (`ℚ`).  The Python code stores floats, but every
  claim under study is about exact branch conditions, selections and means, so
  the exact-arithmetic model is the faithful reading.
* A rating matrix is a list of rows (`List (List ℚ)`) together with the row
  labels (`userIds`) and column labels (`toolIds`), mirroring the pandas
  DataFrame index/columns.
* `sklearn.neighbors.NearestNeighbors(metric='cosine', algorithm='brute')` is
  embedded by `orderedIndices` / `kneighbors`: the row indices are ordered by
  exact cosine distance to the query vector, ties broken by row position
  (numpy's ordering of equal keys); a query for `m` neighbors fails (sklearn
  raises `ValueError: Expected n_neighbors <= n_samples`) when `m` exceeds the
  number of fitted rows, which the embedding reports as `none`.
  Cosine distance follows sklearn's `cosine_similarity`: rows are normalised,
  a zero-norm row keeping norm 1, so a zero row has similarity 0 with
  everything.  The ordering by cosine distance is decided exactly over `ℚ` by
  `simGt` (sign analysis plus cross-multiplied squares), which agrees with the
  real-number ordering of `1 - u.v / (‖u‖ ‖v‖)` because `x ↦ x²` is monotone
  on nonnegatives and norms are positive square roots.
* Python `raise ValueError(...)` is embedded as `Except.error` with the error
  taxonomy of the specification (`configurationError`, `dataIntegrityError`,
  `notFoundError`); the sklearn failure inside `kneighbors`, which the
  specification does not list, is a fourth constructor `neighborQueryError`.
* pandas `Series` values (`.mean()`, `mean(axis=0)` of selected rows) are
  embedded as association lists `List (ℕ × ℚ)` from column label to value;
  `sort_values(ascending=False)` is a stable descending sort;
  `DataFrame.to_dict('records')` rows and the hand-built dictionaries of
  `get_recommendations` are embedded as `List (String × String)` key/value
  lists (field values are uniformly strings, a harmless renaming of values).
-/

namespace LabMate

/-- Dot product of two rating vectors (`np.dot` on the aligned rows). -/
def dotProd (u v : List ℚ) : ℚ := (List.zipWith (fun a b => a * b) u v).sum

/-- Squared Euclidean norm of a rating vector. -/
def sqNorm (v : List ℚ) : ℚ := dotProd v v

/-- The comparison key sklearn's cosine similarity assigns row `v` for query
`u`: conceptually the similarity is `k.1 / √(sqNorm u * k.2)`; a zero-norm row
is given key `(0, 1)` because sklearn's `normalize` leaves zero rows at zero
(similarity exactly 0). -/
def simKey (u v : List ℚ) : ℚ × ℚ :=
  if sqNorm v = 0 then (0, 1) else (dotProd u v, sqNorm v)

/-- Decides `cosineSimilarity u a > cosineSimilarity u b` exactly over `ℚ`.
Writing the two similarities as `p.1 / √p.2` and `q.1 / √q.2` (up to the
common positive factor `1 / √(sqNorm u)`), the comparison is settled by the
signs of the numerators and, when both are on the same side of zero, by
comparing the cross-multiplied squares. -/
def simGt (u a b : List ℚ) : Bool :=
  let p := simKey u a
  let q := simKey u b
  if q.1 < 0 then decide (0 ≤ p.1) || decide (p.1 * p.1 * q.2 < q.1 * q.1 * p.2)
  else if 0 < p.1 then decide (q.1 ≤ 0) || decide (p.1 * p.1 * q.2 > q.1 * q.1 * p.2)
  else false

/-- Row index `i` sorts no later than `j` in the neighbor ordering for query
`u`: strictly smaller cosine distance (i.e. strictly greater similarity), or
tied distance with `i ≤ j` (index tie-break). -/
def nbrLe (rows : List (List ℚ)) (u : List ℚ) (i j : ℕ) : Bool :=
  simGt u (rows.getD i []) (rows.getD j []) ||
    (!(simGt u (rows.getD j []) (rows.getD i [])) && decide (i ≤ j))

/-- The neighbor ordering as a relation on row indices. -/
def nbrRel (rows : List (List ℚ)) (u : List ℚ) (i j : ℕ) : Prop :=
  nbrLe rows u i j = true

instance nbrRelDec (rows : List (List ℚ)) (u : List ℚ) : DecidableRel (nbrRel rows u) :=
  fun i j => instDecidableEqBool (nbrLe rows u i j) true

/-- All row indices of the fitted matrix, ordered by cosine distance to `u`
(ties by row position). -/
def orderedIndices (rows : List (List ℚ)) (u : List ℚ) : List ℕ :=
  List.insertionSort (nbrRel rows u) (List.range rows.length)

/-- `model.kneighbors(u, n_neighbors=m)`: the indices of the `m` nearest rows;
`none` when `m` is not a valid neighbor count for the fitted data (sklearn
raises unless `1 ≤ m ≤ n_samples`). -/
def kneighbors (rows : List (List ℚ)) (u : List ℚ) (m : ℕ) : Option (List ℕ) :=
  if 1 ≤ m ∧ m ≤ rows.length then some ((orderedIndices rows u).take m) else none

/-- Column-wise mean of a stack of rows (`DataFrame.mean()` /
`mean(axis=0)`): the mean of column `j` over all given rows. -/
def colMean (rows : List (List ℚ)) (j : ℕ) : ℚ :=
  (rows.map (fun row => row.getD j 0)).sum / (rows.length : ℚ)

/-- The pandas Series of column-wise means, indexed by the column labels. -/
def seriesOfCols (toolIds : List ℕ) (rows : List (List ℚ)) : List (ℕ × ℚ) :=
  (List.range toolIds.length).map (fun j => (toolIds.getD j 0, colMean rows j))

/-- Descending-by-value order on Series entries, used by
`sort_values(ascending=False)`. -/
def descRel (p q : ℕ × ℚ) : Prop := q.2 ≤ p.2

instance descRelDec : DecidableRel descRel :=
  fun p q => inferInstanceAs (Decidable (q.2 ≤ p.2))

/-- `series.sort_values(ascending=False)`: stable descending sort by value
(entries with equal values keep their prior relative order). -/
def sortDesc (s : List (ℕ × ℚ)) : List (ℕ × ℚ) := List.insertionSort descRel s

/-- One row of the `tools_df` item catalog.  `tool_id` and `tool_name` are
required columns; the remaining columns are optional (`none` embeds an absent
column, read through `dict.get(key, '')` in the source). -/
structure Tool where
  tool_id : ℕ
  tool_name : String
  category : Option String
  features : Option String
  cost : Option String
  description : Option String
  url : Option String
  language : Option String
  platform : Option String
deriving DecidableEq

/-- The specification's error taxonomy for the raised `ValueError`s, plus the
sklearn `kneighbors` failure (`Expected n_neighbors <= n_samples`), which the
specification's taxonomy does not contain. -/
inductive RecError where
  | configurationError : RecError
  | dataIntegrityError : RecError
  | notFoundError : RecError
  | neighborQueryError : RecError
deriving DecidableEq

/-- The constructed `CollaborativeRecommender`: the rating matrix (row labels
`userIds`, column labels `toolIds`, entries `rows`), the item catalog, and the
configured neighbor count `n_neighbors` (a Python int, hence `ℤ`). -/
structure Recommender where
  userIds : List ℕ
  toolIds : List ℕ
  rows : List (List ℚ)
  tools : List Tool
  n_neighbors : ℤ
deriving DecidableEq

/-- `CollaborativeRecommender.__init__`, in source order: (1) raise when some
matrix column id is absent from the catalog; (2) raise when the catalog has
duplicate tool ids; (3) raise when `n_neighbors < 1`; otherwise fit and
return the instance.  (The second subset check at source lines 59-66 repeats
check (1) verbatim and is omitted as redundant.) -/
def mkRecommender (userIds toolIds : List ℕ) (rows : List (List ℚ))
    (tools : List Tool) (k : ℤ) : Except RecError Recommender :=
  if toolIds.filter (fun t => decide (¬ t ∈ tools.map Tool.tool_id)) ≠ [] then
    .error .dataIntegrityError
  else if ¬ (tools.map Tool.tool_id).Nodup then
    .error .dataIntegrityError
  else if k < 1 then
    .error .configurationError
  else
    .ok ⟨userIds, toolIds, rows, tools, k⟩

/-- Position of `user_id` in the matrix index (`user_id in matrix.index` /
`matrix.loc[user_id]`). -/
def findUser (r : Recommender) (uid : ℕ) : Option ℕ :=
  List.findIdx? (fun u => decide (u = uid)) r.userIds

/-- The neighbor count `get_recommendation_scores` passes to `kneighbors`:
`min(self.n_neighbors, len(self.user_item_matrix)) + 1` (source lines
104-106). -/
def scoresNeighborRequest (k : ℤ) (numUsers : ℕ) : ℕ :=
  (min k (numUsers : ℤ) + 1).toNat

/-- The neighbor count `get_recommendations` passes to `kneighbors`:
`self.n_neighbors + 1`, unconditionally (source line 161); the clamped value
computed on line 157 is not the one used. -/
def recsNeighborRequest (k : ℤ) : ℕ := (k + 1).toNat

/-- The body of `get_recommendation_scores` once the user's row position is
known (source lines 95-116): an all-zero row gets the global column-wise
mean; otherwise query `min(k, #users) + 1` nearest rows, drop the first
match, and return the column-wise mean of the remaining rows' ratings. -/
def scoresBody (r : Recommender) (uIdx : ℕ) : Except RecError (List (ℕ × ℚ)) :=
  if (r.rows.getD uIdx []).all (fun x => decide (x = 0)) then
    .ok (seriesOfCols r.toolIds r.rows)
  else
    match kneighbors r.rows (r.rows.getD uIdx [])
        (scoresNeighborRequest r.n_neighbors r.rows.length) with
    | none => .error .neighborQueryError
    | some idxs =>
      .ok (seriesOfCols r.toolIds ((idxs.drop 1).map (fun i => r.rows.getD i [])))

/-- `get_recommendation_scores(user_id)` (source lines 79-116): an unknown
user raises, otherwise the body above runs on the user's row position. -/
def get_recommendation_scores (r : Recommender) (user_id : ℕ) :
    Except RecError (List (ℕ × ℚ)) :=
  match findUser r user_id with
  | none => .error .notFoundError
  | some uIdx => scoresBody r uIdx

/-- The fixed field list of the dictionaries built at source lines 191-201. -/
def nineFields : List String :=
  ["tool_id", "tool_name", "category", "features", "cost", "description",
   "url", "language", "platform"]

/-- One optional catalog column of a raw record: present fields contribute
their key/value pair, absent fields contribute nothing. -/
def optField (key : String) : Option String → List (String × String)
  | none => []
  | some v => [(key, v)]

/-- A catalog row exactly as stored (`tools_df.to_dict('records')`): the two
required columns plus whichever optional columns the catalog has. -/
def toDict (t : Tool) : List (String × String) :=
  [("tool_id", toString t.tool_id), ("tool_name", t.tool_name)] ++
    optField "category" t.category ++ optField "features" t.features ++
    optField "cost" t.cost ++ optField "description" t.description ++
    optField "url" t.url ++ optField "language" t.language ++
    optField "platform" t.platform

/-- The normalised dictionary built by the general branch (source lines
191-201): exactly the nine fields, missing optional fields defaulting to the
empty string. -/
def normalizedRecord (tid : ℕ) (t : Tool) : List (String × String) :=
  [("tool_id", toString tid), ("tool_name", t.tool_name),
   ("category", t.category.getD ""), ("features", t.features.getD ""),
   ("cost", t.cost.getD ""), ("description", t.description.getD ""),
   ("url", t.url.getD ""), ("language", t.language.getD ""),
   ("platform", t.platform.getD "")]

/-- The top-`n` tool ids of the cold-start branch (source lines 144-146):
global column-wise means, sorted descending, first `n` labels. -/
def coldTopIds (r : Recommender) (n : ℤ) : List ℕ :=
  ((sortDesc (seriesOfCols r.toolIds r.rows)).take n.toNat).map Prod.fst

/-- The cold-start branch result (source lines 147-149):
`tools_df[tools_df['tool_id'].isin(top)]` keeps the catalog rows whose id is
among the top ids — in catalog row order — and emits them as stored. -/
def coldRecords (r : Recommender) (n : ℤ) : List (List (String × String)) :=
  (r.tools.filter (fun t => decide (t.tool_id ∈ coldTopIds r n))).map toDict

/-- The tool ids the user has already rated positively (source lines
171-172): the column labels at positions where the user's rating is `> 0`. -/
def ratedIds (r : Recommender) (uIdx : ℕ) : List ℕ :=
  (List.range r.toolIds.length).filterMap
    (fun j => if 0 < (r.rows.getD uIdx []).getD j 0
              then some (r.toolIds.getD j 0) else none)

/-- The general branch's top-`n` tool ids (source lines 166-184): column-wise
mean over the selected neighbor rows, drop the labels the user already rated,
sort descending, take the first `n` labels. -/
def topGeneralIds (r : Recommender) (uIdx : ℕ) (sims : List ℕ) (n : ℤ) : List ℕ :=
  ((sortDesc ((seriesOfCols r.toolIds (sims.map (fun i => r.rows.getD i []))).filter
      (fun p => !(decide (p.1 ∈ ratedIds r uIdx))))).take n.toNat).map Prod.fst

/-- The general branch's record list (source lines 187-202): resolve each top
id in the catalog, skipping ids the catalog cannot resolve, and emit the
normalised nine-field record. -/
def generalRecords (r : Recommender) (uIdx : ℕ) (sims : List ℕ) (n : ℤ) :
    List (List (String × String)) :=
  (topGeneralIds r uIdx sims n).filterMap
    (fun tid => (r.tools.find? (fun t => decide (t.tool_id = tid))).map
      (normalizedRecord tid))

/-- The body of `get_recommendations` once the user's row position is known
(source lines 140-204): cold-start branch, fully-rated branch, then the
general neighbor branch. -/
def recommendBody (r : Recommender) (uIdx : ℕ) (n : ℤ) :
    Except RecError (List (List (String × String))) :=
  if (r.rows.getD uIdx []).all (fun x => decide (x = 0)) then
    .ok (coldRecords r n)
  else if (r.rows.getD uIdx []).all (fun x => decide (¬ x = 0)) then
    .ok []
  else
    match kneighbors r.rows (r.rows.getD uIdx [])
        (recsNeighborRequest r.n_neighbors) with
    | none => .error .neighborQueryError
    | some idxs => .ok (generalRecords r uIdx (idxs.drop 1) n)

/-- `get_recommendations(user_id, n_recommendations)` (source lines 118-204):
`n < 1` raises first, then an unknown user raises. -/
def get_recommendations (r : Recommender) (user_id : ℕ) (n : ℤ) :
    Except RecError (List (List (String × String))) :=
  if n < 1 then .error .configurationError
  else
    match findUser r user_id with
    | none => .error .notFoundError
    | some uIdx => recommendBody r uIdx n

/-! Concrete instances used by the counterexamples and witnesses below. -/

/-- A minimal catalog row with tool id 10 and no optional columns. -/
def tA : Tool := ⟨10, "A", none, none, none, none, none, none, none⟩

/-- A minimal catalog row with tool id 20 and no optional columns. -/
def tB : Tool := ⟨20, "B", none, none, none, none, none, none, none⟩

/-- Three users, two tools, `n_neighbors = 1`.  User 2's row `[1, 0]` points
in the same direction as user 1's row `[2, 0]`, so both are at cosine
distance 0 from user 2's vector and the neighbor search returns row position
0 first; the discarded first match is then user 1's row, not user 2's own. -/
def rC1 : Recommender := ⟨[1, 2, 3], [10, 20], [[2, 0], [1, 0], [0, 1]], [tA, tB], 1⟩

/-- Two users, two tools.  User 1 has an all-zero row (cold start); the
column means are `(1/2, 1)`, so the descending-score order of the tool ids is
`[20, 10]`, the reverse of the catalog row order. -/
def rC2 : Recommender := ⟨[1, 2], [10, 20], [[0, 0], [1, 2]], [tA, tB], 5⟩

/-- Two users, `n_neighbors = 5 > 2` users: both query paths must fail, but
they request different neighbor counts (3 versus 6). -/
def rC3 : Recommender := ⟨[1, 2], [10, 20], [[1, 0], [0, 1]], [tA, tB], 5⟩

/-- A single user with a nonzero row and the default `n_neighbors = 5`: the
scoring path clamps to `min(5, 1) = 1` but then requests `1 + 1 = 2`
neighbors from a 1-row index, which the similarity search rejects. -/
def rC4 : Recommender := ⟨[1], [10], [[1]], [tA], 5⟩

/-- Three users with pairwise distinct cosine directions and
`n_neighbors = 1`: user 1's own row is the unique nearest match. -/
def rW1 : Recommender := ⟨[1, 2, 3], [10, 20], [[1, 0], [0, 1], [1, 1]], [tA, tB], 1⟩

/-- Three users, user 1 has rated tool 10 but not tool 20 (a mixed row), and
`n_neighbors = 1 < 3` users, so the general recommendation branch succeeds. -/
def rW5 : Recommender := ⟨[1, 2, 3], [10, 20], [[1, 0], [0, 1], [2, 2]], [tA, tB], 1⟩

/-- Two users and one tool; user 1 has rated every tool (row `[1]`). -/
def rW7 : Recommender := ⟨[1, 2], [10], [[1], [0]], [tA], 3⟩

/-! Helper lemmas about the embedding. -/

theorem get_recommendation_scores_eq_body (r : Recommender) (uid uIdx : ℕ)
    (hfind : findUser r uid = some uIdx) :
    get_recommendation_scores r uid = scoresBody r uIdx := by
  unfold get_recommendation_scores
  rw [hfind]

theorem get_recommendations_eq_body (r : Recommender) (uid uIdx : ℕ) (n : ℤ)
    (hn : ¬ n < 1) (hfind : findUser r uid = some uIdx) :
    get_recommendations r uid n = recommendBody r uIdx n := by
  unfold get_recommendations
  rw [if_neg hn, hfind]

theorem recommendBody_ok_inv (r : Recommender) (uIdx : ℕ) (n : ℤ)
    (l : List (List (String × String)))
    (hz : (r.rows.getD uIdx []).all (fun x => decide (x = 0)) = false)
    (hok : recommendBody r uIdx n = .ok l) :
    l = [] ∨ ∃ idxs : List ℕ,
      kneighbors r.rows (r.rows.getD uIdx []) (recsNeighborRequest r.n_neighbors) =
        some idxs ∧
      l = generalRecords r uIdx (idxs.drop 1) n := by
  unfold recommendBody at hok
  rw [if_neg (by rw [hz]; simp)] at hok
  by_cases hall : (r.rows.getD uIdx []).all (fun x => decide (¬ x = 0)) = true
  · rw [if_pos hall] at hok
    injection hok with h
    exact Or.inl h.symm
  · rw [if_neg hall] at hok
    cases hkn : kneighbors r.rows (r.rows.getD uIdx []) (recsNeighborRequest r.n_neighbors) with
    | none => rw [hkn] at hok; exact absurd hok (by simp)
    | some idxs =>
      rw [hkn] at hok
      injection hok with h
      exact Or.inr ⟨idxs, rfl, h.symm⟩

theorem sortDesc_perm (s : List (ℕ × ℚ)) : List.Perm (sortDesc s) s :=
  List.perm_insertionSort descRel s

theorem length_generalRecords_le (r : Recommender) (uIdx : ℕ) (sims : List ℕ) (n : ℤ) :
    (generalRecords r uIdx sims n).length ≤ n.toNat := by
  unfold generalRecords topGeneralIds
  refine le_trans (List.length_filterMap_le _ _) ?_
  simp [List.length_take]

theorem mem_generalRecords (r : Recommender) (uIdx : ℕ) (sims : List ℕ) (n : ℤ)
    (rec : List (String × String)) (h : rec ∈ generalRecords r uIdx sims n) :
    ∃ tid t, r.tools.find? (fun t' => decide (t'.tool_id = tid)) = some t ∧
      rec = normalizedRecord tid t ∧ tid ∉ ratedIds r uIdx := by
  unfold generalRecords at h
  obtain ⟨tid, htid, hmap⟩ := List.mem_filterMap.mp h
  obtain ⟨t, hfd, hrec⟩ := Option.map_eq_some'.mp hmap
  refine ⟨tid, t, hfd, hrec.symm, ?_⟩
  unfold topGeneralIds at htid
  obtain ⟨p, hp, hfst⟩ := List.mem_map.mp htid
  have hp1 : p ∈ (seriesOfCols r.toolIds (sims.map (fun i => r.rows.getD i []))).filter
      (fun q => !(decide (q.1 ∈ ratedIds r uIdx))) :=
    (sortDesc_perm _).mem_iff.mp (List.mem_of_mem_take hp)
  have hp2 := (List.mem_filter.mp hp1).2
  rw [← hfst]
  simpa using hp2

theorem orderedIndices_perm (rows : List (List ℚ)) (u : List ℚ) :
    List.Perm (orderedIndices rows u) (List.range rows.length) :=
  List.perm_insertionSort _ _

theorem orderedIndices_length (rows : List (List ℚ)) (u : List ℚ) :
    (orderedIndices rows u).length = rows.length := by
  rw [(orderedIndices_perm rows u).length_eq, List.length_range]

theorem orderedIndices_nodup (rows : List (List ℚ)) (u : List ℚ) :
    (orderedIndices rows u).Nodup :=
  (orderedIndices_perm rows u).symm.nodup (List.nodup_range rows.length)

theorem orderedIndices_mem_lt (rows : List (List ℚ)) (u : List ℚ) (i : ℕ)
    (h : i ∈ orderedIndices rows u) : i < rows.length := by
  have := (orderedIndices_perm rows u).mem_iff.mp h
  simpa [List.mem_range] using this

/-! Claim theorems. -/

/-- C8: construction fails with `DataIntegrityError` whenever some column
identifier of the rating matrix is absent from the item catalog, or the
catalog contains duplicate item identifiers — and, the result being
`Except.error`, no recommender instance is produced. -/
theorem C8_construction_integrity (userIds toolIds : List ℕ) (rows : List (List ℚ))
    (tools : List Tool) (k : ℤ)
    (h : (∃ t ∈ toolIds, t ∉ tools.map Tool.tool_id) ∨ ¬ (tools.map Tool.tool_id).Nodup) :
    mkRecommender userIds toolIds rows tools k = .error .dataIntegrityError := by
  unfold mkRecommender
  by_cases hfil : toolIds.filter (fun t => decide (¬ t ∈ tools.map Tool.tool_id)) = []
  · rw [if_neg (not_not_intro hfil)]
    rcases h with ⟨t, ht, hmem⟩ | hdup
    · exact absurd (List.filter_eq_nil_iff.mp hfil t ht) (by simp [hmem])
    · rw [if_pos hdup]
  · rw [if_pos hfil]

/-- C8 witness: a matrix column id 10 that an empty catalog cannot contain. -/
theorem C8_construction_integrity_witness :
    ((∃ t ∈ [10], t ∉ ([] : List Tool).map Tool.tool_id) ∨
      ¬ (([] : List Tool).map Tool.tool_id).Nodup) ∧
    mkRecommender [1] [10] [[1]] [] 1 = .error .dataIntegrityError :=
  ⟨Or.inl ⟨10, by decide, by decide⟩,
   C8_construction_integrity [1] [10] [[1]] [] 1 (Or.inl ⟨10, by decide, by decide⟩)⟩

/-- C9 counterexample: with k = 0 AND a matrix column id missing from the
catalog, construction fails with `DataIntegrityError`, not
`ConfigurationError` — the data-integrity checks run before the k-check
(source lines 43-57), so the claim "for every input with k < 1 construction
fails with ConfigurationError" is false at this input. -/
theorem C9_counterexample :
    mkRecommender [1] [10] [[1]] [] 0 = .error .dataIntegrityError ∧
    RecError.dataIntegrityError ≠ RecError.configurationError :=
  ⟨rfl, by decide⟩

/-- C9 amended: construction with k < 1 fails with `ConfigurationError`
provided the two data-integrity checks pass (they run first); and for every
recommender and every n < 1, `get_recommendations` fails with
`ConfigurationError` unconditionally (that check runs before the user
lookup). -/
theorem C9_invalid_parameters (userIds toolIds : List ℕ) (rows : List (List ℚ))
    (tools : List Tool) (k : ℤ)
    (hmiss : ∀ t ∈ toolIds, t ∈ tools.map Tool.tool_id)
    (hdup : (tools.map Tool.tool_id).Nodup) (hk : k < 1) :
    mkRecommender userIds toolIds rows tools k = .error .configurationError ∧
    ∀ (r : Recommender) (uid : ℕ) (n : ℤ), n < 1 →
      get_recommendations r uid n = .error .configurationError := by
  constructor
  · unfold mkRecommender
    have hfil : toolIds.filter (fun t => decide (¬ t ∈ tools.map Tool.tool_id)) = [] :=
      List.filter_eq_nil_iff.mpr (fun a ha => by simp [hmiss a ha])
    rw [if_neg (not_not_intro hfil), if_neg (not_not_intro hdup), if_pos hk]
  · intro r uid n hn
    unfold get_recommendations
    rw [if_pos hn]

/-- C9 witness: k = 0 with clean data fails with `ConfigurationError`, and
n = 0 on a constructed recommender fails with `ConfigurationError`. -/
theorem C9_invalid_parameters_witness :
    mkRecommender [1] [10] [[1]] [tA] 0 = .error .configurationError ∧
    get_recommendations rC4 1 0 = .error .configurationError :=
  ⟨(C9_invalid_parameters [1] [10] [[1]] [tA] 0 (by decide) (by decide) (by decide)).1,
   (C9_invalid_parameters [1] [10] [[1]] [tA] 0 (by decide) (by decide)
     (by decide)).2 rC4 1 0 (by decide)⟩

/-- C4: the claim that the clamp `min(k, #users)` keeps the nearest-neighbor
query valid is wrong — this input is accepted by construction, the clamp
yields `min(5, 1) = 1`, but the query then requests `1 + 1 = 2` neighbors
from a 1-row index and fails, so `get_recommendation_scores` errors for the
sole (nonzero-row) user. -/
theorem C4_clamped_query_fails :
    mkRecommender [1] [10] [[1]] [tA] 5 = .ok rC4 ∧
    scoresNeighborRequest rC4.n_neighbors rC4.rows.length = 2 ∧
    rC4.rows.length = 1 ∧
    get_recommendation_scores rC4 1 = .error .neighborQueryError :=
  ⟨by with_unfolding_all rfl, by decide, rfl, by with_unfolding_all rfl⟩

/-- C3 counterexample: for the mixed-row user 1 of `rC3` (2 users, k = 5) the
two paths request different neighbor counts (6 versus 3) — so the requested
neighbor count is not identical as the claim states — and both queries fail. -/
theorem C3_counterexample :
    recsNeighborRequest rC3.n_neighbors ≠
      scoresNeighborRequest rC3.n_neighbors rC3.rows.length ∧
    get_recommendation_scores rC3 1 = .error .neighborQueryError ∧
    get_recommendations rC3 1 1 = .error .neighborQueryError :=
  ⟨by decide, by with_unfolding_all rfl, by with_unfolding_all rfl⟩

/-- C3 amended: the requested neighbor counts of the two paths coincide
whenever k does not exceed the number of users; when it does they differ,
but both requests are then invalid and the neighbor query fails in both
paths, so the rows selected (an `Option`, `none` for failure) always agree. -/
theorem C3_neighbor_selection (k : ℤ) (rows : List (List ℚ)) (u : List ℚ)
    (hk : 1 ≤ k) :
    (k ≤ (rows.length : ℤ) → recsNeighborRequest k = scoresNeighborRequest k rows.length) ∧
    kneighbors rows u (recsNeighborRequest k) =
      kneighbors rows u (scoresNeighborRequest k rows.length) := by
  have heq : k ≤ (rows.length : ℤ) →
      recsNeighborRequest k = scoresNeighborRequest k rows.length := by
    intro h
    unfold recsNeighborRequest scoresNeighborRequest
    rw [min_eq_left h]
  refine ⟨heq, ?_⟩
  rcases le_or_lt k (rows.length : ℤ) with h | h
  · rw [heq h]
  · have h1 : recsNeighborRequest k = k.toNat + 1 := by
      unfold recsNeighborRequest; omega
    have h2 : scoresNeighborRequest k rows.length = rows.length + 1 := by
      unfold scoresNeighborRequest
      rw [min_eq_right (le_of_lt h)]
      omega
    rw [h1, h2]
    unfold kneighbors
    rw [if_neg (by omega), if_neg (by omega)]

/-- C3 witness: k = 2 on a 3-user matrix. -/
theorem C3_neighbor_selection_witness :
    (1 : ℤ) ≤ 2 ∧
    kneighbors [[1], [2], [3]] [1] (recsNeighborRequest 2) =
      kneighbors [[1], [2], [3]] [1] (scoresNeighborRequest 2 3) :=
  ⟨by decide, (C3_neighbor_selection 2 [[1], [2], [3]] [1] (by decide)).2⟩

/-- C1 counterexample: in `rC1` (k = 1), user 2's row `[1, 0]` has user 1's
row `[2, 0]` at cosine distance 0 as well, so the first match discarded by
the scoring path is row position 0 and the returned score vector is the mean
of the user's OWN row.  The claim requires the result to be the column-wise
mean of exactly one row other than the user's own, i.e. of row position 0 or
row position 2 — and it equals neither, while it does equal the mean of the
user's own row position 1. -/
theorem C1_counterexample :
    get_recommendation_scores rC1 2 = .ok [(10, 1), (20, 0)] ∧
    seriesOfCols rC1.toolIds [rC1.rows.getD 0 []] ≠ [(10, 1), (20, 0)] ∧
    seriesOfCols rC1.toolIds [rC1.rows.getD 2 []] ≠ [(10, 1), (20, 0)] ∧
    seriesOfCols rC1.toolIds [rC1.rows.getD 1 []] = [(10, 1), (20, 0)] :=
  ⟨by with_unfolding_all rfl, by with_unfolding_all decide,
   by with_unfolding_all decide, by with_unfolding_all rfl⟩

/-- C2 counterexample: for the cold-start user 1 of `rC2` the top-2 ids in
descending order of global mean are `[20, 10]`, but the returned records come
out in catalog row order — tool 10's record before tool 20's — not in
descending-score order as the claim states. -/
theorem C2_counterexample :
    get_recommendations rC2 1 2 = .ok [toDict tA, toDict tB] ∧
    coldTopIds rC2 2 = [20, 10] ∧
    [toDict tA, toDict tB] ≠ [toDict tB, toDict tA] :=
  ⟨by with_unfolding_all rfl, by with_unfolding_all rfl, by decide⟩

/-- C2 amended: a cold-start user receives the records of exactly the top-n
items of the descending global column-wise mean ranking (`coldTopIds`), but
filtered out of the catalog in catalog row order and emitted as the raw
stored rows — and the result does not depend on the configured neighbor
count k. -/
theorem C2_cold_recommendations (userIds toolIds : List ℕ) (rows : List (List ℚ))
    (tools : List Tool) (k k' : ℤ) (uid uIdx : ℕ) (n : ℤ)
    (hn : 1 ≤ n)
    (hfind : findUser ⟨userIds, toolIds, rows, tools, k⟩ uid = some uIdx)
    (hzero : (rows.getD uIdx []).all (fun x => decide (x = 0)) = true) :
    get_recommendations ⟨userIds, toolIds, rows, tools, k⟩ uid n =
      .ok ((tools.filter (fun t =>
        decide (t.tool_id ∈ coldTopIds ⟨userIds, toolIds, rows, tools, k⟩ n))).map toDict) ∧
    get_recommendations ⟨userIds, toolIds, rows, tools, k'⟩ uid n =
      get_recommendations ⟨userIds, toolIds, rows, tools, k⟩ uid n := by
  have h1 : ∀ m : ℤ, get_recommendations ⟨userIds, toolIds, rows, tools, m⟩ uid n =
      .ok (coldRecords ⟨userIds, toolIds, rows, tools, m⟩ n) := by
    intro m
    rw [get_recommendations_eq_body ⟨userIds, toolIds, rows, tools, m⟩ uid uIdx n
      (by omega) hfind]
    unfold recommendBody
    rw [if_pos hzero]
  refine ⟨h1 k, ?_⟩
  rw [h1 k, h1 k']
  rfl

/-- C2 witness: the cold-start user of `rC2`, with k = 5 and k' = 7. -/
theorem C2_cold_recommendations_witness :
    get_recommendations rC2 1 2 =
      .ok ((rC2.tools.filter (fun t => decide (t.tool_id ∈ coldTopIds rC2 2))).map toDict) ∧
    get_recommendations ⟨[1, 2], [10, 20], [[0, 0], [1, 2]], [tA, tB], 7⟩ 1 2 =
      get_recommendations rC2 1 2 :=
  C2_cold_recommendations [1, 2] [10, 20] [[0, 0], [1, 2]] [tA, tB] 5 7 1 0 2
    (by decide) rfl rfl

/-- C6: for a user present in the matrix whose row is all zeros,
`get_recommendation_scores` returns exactly the column-wise mean rating over
all users — spelled out as sum of the column over every row divided by the
number of users. -/
theorem C6_cold_scores (r : Recommender) (uid uIdx : ℕ)
    (hfind : findUser r uid = some uIdx)
    (hzero : (r.rows.getD uIdx []).all (fun x => decide (x = 0)) = true) :
    get_recommendation_scores r uid =
      .ok ((List.range r.toolIds.length).map
        (fun j => (r.toolIds.getD j 0,
          (r.rows.map (fun row => row.getD j 0)).sum / (r.rows.length : ℚ)))) := by
  rw [get_recommendation_scores_eq_body r uid uIdx hfind]
  unfold scoresBody
  rw [if_pos hzero]
  rfl

/-- C6 witness: the cold-start user of `rC2`; the means are 1/2 and 1. -/
theorem C6_cold_scores_witness :
    findUser rC2 1 = some 0 ∧
    get_recommendation_scores rC2 1 = .ok [(10, (1 : ℚ)/2), (20, 1)] := by
  refine ⟨rfl, ?_⟩
  rw [C6_cold_scores rC2 1 0 rfl rfl]
  with_unfolding_all rfl

/-- C7: a user present in the matrix whose row has a nonzero rating in every
position (row length matching the column count) receives the empty
recommendation list for any n ≥ 1. -/
theorem C7_fully_rated (r : Recommender) (uid uIdx : ℕ) (n : ℤ)
    (hn : 1 ≤ n) (hfind : findUser r uid = some uIdx)
    (hlen : (r.rows.getD uIdx []).length = r.toolIds.length)
    (hall : (r.rows.getD uIdx []).all (fun x => decide (¬ x = 0)) = true) :
    get_recommendations r uid n = .ok [] := by
  rw [get_recommendations_eq_body r uid uIdx n (by omega) hfind]
  unfold recommendBody
  by_cases hz : (r.rows.getD uIdx []).all (fun x => decide (x = 0)) = true
  · have hrow : r.rows.getD uIdx [] = [] := by
      cases hcase : r.rows.getD uIdx [] with
      | nil => rfl
      | cons a tl =>
        rw [hcase] at hz hall
        simp at hz hall
        exact absurd hz.1 hall.1
    have htools : r.toolIds = [] := by
      rw [← List.length_eq_zero, ← hlen, hrow]
      rfl
    rw [if_pos hz]
    have hcold : coldTopIds r n = [] := by
      unfold coldTopIds sortDesc seriesOfCols
      rw [htools]
      simp
    have hrec : coldRecords r n = [] := by
      unfold coldRecords
      rw [hcold]
      rw [List.filter_eq_nil_iff.mpr (fun a _ => by simp)]
      rfl
    rw [hrec]
  · rw [if_neg hz, if_pos hall]

/-- C7 witness: user 1 of `rW7` has rated the single tool. -/
theorem C7_fully_rated_witness :
    get_recommendations rW7 1 5 = .ok [] :=
  C7_fully_rated rW7 1 0 5 (by decide) rfl rfl (by with_unfolding_all rfl)

/-- C5: for a user present in the matrix whose row is not all zeros, a
successful `get_recommendations` call returns at most n records, and every
returned record is a catalog-resolved normalised record whose tool id the
user has rated positively in no matrix column (`ratedIds` collects the
column labels at positions with rating > 0 in the user's row). -/
theorem C5_bounded_and_unrated (r : Recommender) (uid uIdx : ℕ) (n : ℤ)
    (l : List (List (String × String)))
    (hn : 1 ≤ n) (hfind : findUser r uid = some uIdx)
    (hnz : (r.rows.getD uIdx []).all (fun x => decide (x = 0)) = false)
    (hok : get_recommendations r uid n = .ok l) :
    l.length ≤ n.toNat ∧
    ∀ rec ∈ l, ∃ tid t,
      r.tools.find? (fun t' => decide (t'.tool_id = tid)) = some t ∧
      rec = normalizedRecord tid t ∧ tid ∉ ratedIds r uIdx := by
  rw [get_recommendations_eq_body r uid uIdx n (by omega) hfind] at hok
  rcases recommendBody_ok_inv r uIdx n l hnz hok with h | ⟨idxs, _, h⟩
  · subst h
    exact ⟨by simp, fun rec hrec => by cases hrec⟩
  · subst h
    exact ⟨length_generalRecords_le r uIdx (idxs.drop 1) n,
      fun rec hrec => mem_generalRecords r uIdx (idxs.drop 1) n rec hrec⟩

/-- C5 witness: user 1 of `rW5` has rated tool 10 only; the single
recommendation is tool 20's record. -/
theorem C5_bounded_and_unrated_witness :
    get_recommendations rW5 1 1 = .ok [normalizedRecord 20 tB] ∧
    [normalizedRecord 20 tB].length ≤ (1 : ℤ).toNat :=
  ⟨by with_unfolding_all rfl,
   (C5_bounded_and_unrated rW5 1 0 1 [normalizedRecord 20 tB] (by decide) rfl
     (by with_unfolding_all rfl) (by with_unfolding_all rfl)).1⟩

/-- C10: the record shape differs by branch — the cold-start branch returns
the catalog's raw stored rows (`toDict`, whichever optional columns each row
has, in catalog row order), while the general branch returns only normalised
records: each has exactly the nine fields of `nineFields` in order (missing
optional fields becoming the empty string inside `normalizedRecord`) and is
resolved from the catalog, unresolvable ids having been skipped. -/
theorem C10_record_shapes (r : Recommender) (uid uIdx : ℕ) (n : ℤ)
    (hn : 1 ≤ n) (hfind : findUser r uid = some uIdx) :
    ((r.rows.getD uIdx []).all (fun x => decide (x = 0)) = true →
      get_recommendations r uid n =
        .ok ((r.tools.filter (fun t => decide (t.tool_id ∈ coldTopIds r n))).map toDict)) ∧
    (∀ l, (r.rows.getD uIdx []).all (fun x => decide (x = 0)) = false →
      get_recommendations r uid n = .ok l →
      ∀ rec ∈ l, rec.map Prod.fst = nineFields ∧
        ∃ tid t, r.tools.find? (fun t' => decide (t'.tool_id = tid)) = some t ∧
          rec = normalizedRecord tid t) := by
  constructor
  · intro hzero
    rw [get_recommendations_eq_body r uid uIdx n (by omega) hfind]
    unfold recommendBody
    rw [if_pos hzero]
    rfl
  · intro l hz hok
    rw [get_recommendations_eq_body r uid uIdx n (by omega) hfind] at hok
    rcases recommendBody_ok_inv r uIdx n l hz hok with h | ⟨idxs, _, h⟩
    · subst h
      intro rec hrec
      cases hrec
    · subst h
      intro rec hrec
      obtain ⟨tid, t, hfd, hrec2, _⟩ := mem_generalRecords r uIdx (idxs.drop 1) n rec hrec
      exact ⟨by rw [hrec2]; rfl, tid, t, hfd, hrec2⟩

/-- C10 witness: the cold branch of `rC2` at n = 1 emits raw catalog rows. -/
theorem C10_record_shapes_witness :
    get_recommendations rC2 1 1 =
      .ok ((rC2.tools.filter (fun t => decide (t.tool_id ∈ coldTopIds rC2 1))).map toDict) :=
  (C10_record_shapes rC2 1 0 1 (by decide) rfl).1 rfl

/-- C1 amended: for a non-cold-start user, provided k + 1 does not exceed the
number of users (otherwise the neighbor query fails, see the C4 theorem) and
the user's own row is ranked first by the neighbor search (true whenever no
other row ties with it at cosine distance zero; the counterexample shows the
discarded first match can otherwise be a different row, leaving the user's
own row in the mean), `get_recommendation_scores` returns the column-wise
mean of exactly k rows of the matrix, all at row positions other than the
user's own. -/
theorem C1_scores_neighbor_mean (r : Recommender) (uid uIdx : ℕ)
    (hk1 : 1 ≤ r.n_neighbors)
    (hkN : r.n_neighbors + 1 ≤ (r.rows.length : ℤ))
    (hfind : findUser r uid = some uIdx)
    (hnz : (r.rows.getD uIdx []).all (fun x => decide (x = 0)) = false)
    (hself : (orderedIndices r.rows (r.rows.getD uIdx [])).head? = some uIdx) :
    ∃ sel : List ℕ,
      get_recommendation_scores r uid =
        .ok (seriesOfCols r.toolIds (sel.map (fun i => r.rows.getD i []))) ∧
      sel.length = r.n_neighbors.toNat ∧
      ∀ i ∈ sel, i < r.rows.length ∧ i ≠ uIdx := by
  have hreq : scoresNeighborRequest r.n_neighbors r.rows.length =
      r.n_neighbors.toNat + 1 := by
    unfold scoresNeighborRequest
    omega
  have hkn : kneighbors r.rows (r.rows.getD uIdx [])
      (scoresNeighborRequest r.n_neighbors r.rows.length) =
      some ((orderedIndices r.rows (r.rows.getD uIdx [])).take (r.n_neighbors.toNat + 1)) := by
    rw [hreq]
    unfold kneighbors
    rw [if_pos ⟨by omega, by omega⟩]
  refine ⟨((orderedIndices r.rows (r.rows.getD uIdx [])).take
      (r.n_neighbors.toNat + 1)).drop 1, ?_, ?_, ?_⟩
  · rw [get_recommendation_scores_eq_body r uid uIdx hfind]
    unfold scoresBody
    rw [if_neg (by rw [hnz]; simp), hkn]
  · rw [List.length_drop, List.length_take, orderedIndices_length]
    omega
  · obtain ⟨rest, hrest⟩ : ∃ rest,
        orderedIndices r.rows (r.rows.getD uIdx []) = uIdx :: rest := by
      cases hcase : orderedIndices r.rows (r.rows.getD uIdx []) with
      | nil => rw [hcase] at hself; cases hself
      | cons a tl =>
        rw [hcase] at hself
        injection hself with h
        exact ⟨tl, by rw [h]⟩
    intro i hi
    rw [hrest, List.take_succ_cons, List.drop_one, List.tail_cons] at hi
    have hmem : i ∈ rest := List.mem_of_mem_take hi
    have hioi : i ∈ orderedIndices r.rows (r.rows.getD uIdx []) := by
      rw [hrest]
      exact List.mem_cons_of_mem _ hmem
    refine ⟨orderedIndices_mem_lt r.rows (r.rows.getD uIdx []) i hioi, ?_⟩
    have hnd := orderedIndices_nodup r.rows (r.rows.getD uIdx [])
    rw [hrest] at hnd
    intro heq
    exact (List.nodup_cons.mp hnd).1 (heq ▸ hmem)

/-- C1 witness: in `rW1` the three rows point in pairwise distinct cosine
directions, so user 1's own row is the unique nearest match and the score
vector is the mean of exactly one other row. -/
theorem C1_scores_neighbor_mean_witness :
    (orderedIndices rW1.rows (rW1.rows.getD 0 [])).head? = some 0 ∧
    ∃ sel : List ℕ,
      get_recommendation_scores rW1 1 =
        .ok (seriesOfCols rW1.toolIds (sel.map (fun i => rW1.rows.getD i []))) ∧
      sel.length = rW1.n_neighbors.toNat ∧
      ∀ i ∈ sel, i < rW1.rows.length ∧ i ≠ 0 :=
  ⟨by with_unfolding_all decide,
   C1_scores_neighbor_mean rW1 1 0 (by decide) (by decide) rfl
     (by with_unfolding_all rfl) (by with_unfolding_all decide)⟩

end LabMate
